import Mathlib

/-!
Shallow embedding of `utils/runpod/upload_large_file/upload_large_file.py`
(`LargeMultipartUploader` and the `__main__` validation glue).

Modelling conventions:
* Python ints are `Nat` (all quantities involved are nonnegative and Python
  ints are unbounded); `math.ceil(a / b)` on nonnegative ints is embedded as
  exact ceiling division `(a + b - 1) / b`.
* Exceptions are values of `PyErr`; a fallible call is `Except PyErr α`.
* Each network call site is an oracle function from the attempt number to the
  outcome of that attempt, so retry loops are deterministic functions of the
  oracle.
* A Python `for` loop over `range(1, max_retries + 1)` is embedded as
  structural recursion on the number of remaining iterations (`fuel`); the
  loop body sees the same 1-based `attempt` counter as the source.  A loop
  that falls through without returning yields `.ok none` (Python returns
  `None`).
* `time.sleep` calls are recorded in a `sleeps` trace, and every storage API
  invocation is recorded in an `ops` trace.
* The `ThreadPoolExecutor` fan-out of part uploads is modelled twice:
  `run_parts` is the sequential receipt-collection abstraction consumed by
  `upload`, adequate for properties independent of executor scheduling, and
  `run_parts_pool` keeps the executor's submit-all-before-collect semantics,
  in which `shutdown(wait=True)` runs every submitted task to completion even
  after a fatal error; receipt lists of arbitrary order are quantified over
  where ordering matters.
* Logging, boto session plumbing and file I/O are side effects with no
  bearing on the claims and are not modelled.
-/

namespace UploadLargeFile

/-! Constants from the top of the script. -/

def MIN_PART_SIZE_BYTES : Nat := 5 * 1024 * 1024

def MAX_PART_SIZE_BYTES : Nat := 5 * 1024 * 1024 * 1024

def MAX_PARTS : Nat := 10000

def DEFAULT_PART_SIZE_BYTES : Nat := 50 * 1024 * 1024

/-- Embedding of `math.ceil(a / b)` for nonnegative integers. -/
def ceil_div (a b : Nat) : Nat := (a + b - 1) / b

/-- `compute_chunk_size`: `max(DEFAULT_PART_SIZE_BYTES, MIN_PART_SIZE_BYTES,
math.ceil(file_size / MAX_PARTS))`.  Python's three-argument `max` folds from
the left. -/
def compute_chunk_size (file_size : Nat) : Nat :=
  max (max DEFAULT_PART_SIZE_BYTES MIN_PART_SIZE_BYTES) (ceil_div file_size MAX_PARTS)

/-- The exception values the script distinguishes.  `clientError` carries the
HTTP status of `ResponseMetadata` and the `Error.Code` string; the two
timeout errors are `botocore` classes caught separately from generic
`BotoCoreError`; `runtimeError` models Python `RuntimeError` (not a
`botocore` class, so never caught by the script's `except` clauses). -/
inductive PyErr where
  | clientError (status : Nat) (code : String)
  | readTimeout
  | connectTimeout
  | botoCoreError (msg : String)
  | runtimeError (msg : String)
  deriving DecidableEq

/-- `is_insufficient_storage_error`: a `ClientError` whose response metadata
reports HTTP status 507. -/
def is_insufficient_storage_error : PyErr → Bool
  | .clientError status _ => status == 507
  | _ => false

/-- `is_524_error`: a `ClientError` whose response metadata reports HTTP
status 524. -/
def is_524_error : PyErr → Bool
  | .clientError status _ => status == 524
  | _ => false

/-- `is_no_such_upload_error`: a `ClientError` whose `Error.Code` is
`NoSuchUpload`. -/
def is_no_such_upload_error : PyErr → Bool
  | .clientError _ code => code == "NoSuchUpload"
  | _ => false

/-- `isinstance(exc, (ReadTimeoutError, ConnectTimeoutError))`. -/
def isClientTimeout : PyErr → Bool
  | .readTimeout => true
  | .connectTimeout => true
  | _ => false

/-- `isinstance(exc, ClientError)`. -/
def isClientError : PyErr → Bool
  | .clientError _ _ => true
  | _ => false

/-- `isinstance(exc, BotoCoreError)`; the two timeout errors are
`BotoCoreError` subclasses. -/
def isBotoCoreError : PyErr → Bool
  | .readTimeout => true
  | .connectTimeout => true
  | .botoCoreError _ => true
  | _ => false

/-- Observable outcome of a retry loop: the returned/raised value, the number
of attempts actually made, and the `time.sleep` durations in order. -/
structure RetryOutcome (α : Type) where
  result : Except PyErr (Option α)
  attempts : Nat
  sleeps : List Nat

/-- Loop body of `call_with_524_retry`.  `fuel` is the number of remaining
iterations of `for attempt in range(1, max_retries + 1)`; `attempt` is the
1-based counter the body sees.  A 524 `ClientError` or a client-side timeout
is retried with `time.sleep(2 ** attempt)` unless `attempt == max_retries`;
any other `ClientError` is re-raised; exceptions of other classes propagate
uncaught. -/
def call_with_524_retry_loop {α : Type} (max_retries : Nat)
    (op : Nat → Except PyErr α) (attempt : Nat) : Nat → RetryOutcome α
  | 0 => ⟨.ok none, 0, []⟩
  | fuel + 1 =>
    match op attempt with
    | .ok v => ⟨.ok (some v), 1, []⟩
    | .error e =>
      if isClientError e then
        if is_524_error e then
          if attempt == max_retries then ⟨.error e, 1, []⟩
          else
            let rest := call_with_524_retry_loop max_retries op (attempt + 1) fuel
            ⟨rest.result, rest.attempts + 1, 2 ^ attempt :: rest.sleeps⟩
        else ⟨.error e, 1, []⟩
      else if isClientTimeout e then
        if attempt == max_retries then ⟨.error e, 1, []⟩
        else
          let rest := call_with_524_retry_loop max_retries op (attempt + 1) fuel
          ⟨rest.result, rest.attempts + 1, 2 ^ attempt :: rest.sleeps⟩
      else ⟨.error e, 1, []⟩

/-- `call_with_524_retry(description, func)`. -/
def call_with_524_retry {α : Type} (max_retries : Nat)
    (op : Nat → Except PyErr α) : RetryOutcome α :=
  call_with_524_retry_loop max_retries op 1 max_retries

/-- A part receipt `{"PartNumber": part_number, "ETag": etag}`. -/
structure PartReceipt where
  PartNumber : Nat
  ETag : String
  deriving DecidableEq

/-- Observable outcome of one `upload_part` invocation. -/
structure PartOutcome where
  result : Except PyErr (Option PartReceipt)
  attempts : Nat
  sleeps : List Nat

/-- Loop body of `upload_part`.  Every `(BotoCoreError, ClientError)` is
caught; a 507 response raises `RuntimeError("Server reported insufficient
storage")` at once (no sleep, no further attempt); otherwise the attempt is
retried after `time.sleep(2 ** attempt)` unless `attempt == max_retries`, in
which case the exception is re-raised. -/
def upload_part_loop (max_retries : Nat) (op : Nat → Except PyErr String)
    (part_number attempt : Nat) : Nat → PartOutcome
  | 0 => ⟨.ok none, 0, []⟩
  | fuel + 1 =>
    match op attempt with
    | .ok etag => ⟨.ok (some ⟨part_number, etag⟩), 1, []⟩
    | .error e =>
      if isBotoCoreError e || isClientError e then
        if is_insufficient_storage_error e then
          ⟨.error (.runtimeError "Server reported insufficient storage"), 1, []⟩
        else if attempt == max_retries then ⟨.error e, 1, []⟩
        else
          let rest := upload_part_loop max_retries op part_number (attempt + 1) fuel
          ⟨rest.result, rest.attempts + 1, 2 ^ attempt :: rest.sleeps⟩
      else ⟨.error e, 1, []⟩

/-- `upload_part(part_number=..., ...)`: the retry loop entered at attempt 1. -/
def upload_part (max_retries : Nat) (op : Nat → Except PyErr String)
    (part_number : Nat) : PartOutcome :=
  upload_part_loop max_retries op part_number 1 max_retries

/-- The storage API operations the script can issue.  `abortMultipartUpload`
exists in the S3 protocol but is listed so that its absence from every trace
of the embedding is expressible. -/
inductive S3Op where
  | createMultipartUpload
  | uploadPart (part_number : Nat)
  | listParts
  | completeMultipartUpload
  | headObject
  | abortMultipartUpload
  deriving DecidableEq

/-- One part task of the dispatch loop in `upload`:
`offset = (part_num - 1) * part_size`,
`chunk_size = min(part_size, file_size - offset)`. -/
structure PartTask where
  part_number : Nat
  offset : Nat
  bytes_to_read : Nat
  deriving DecidableEq

/-- The eagerly generated part tasks of `upload`:
`for part_num in range(1, total_parts + 1)` with
`total_parts = math.ceil(file_size / part_size)`. -/
def part_tasks (file_size part_size : Nat) : List PartTask :=
  (List.range (ceil_div file_size part_size)).map fun k =>
    { part_number := k + 1
      offset := k * part_size
      bytes_to_read := min part_size (file_size - k * part_size) }

/-- Outcome of the part-upload phase of `upload`. -/
structure PartsPhase where
  result : Except PyErr (List PartReceipt)
  ops : List S3Op
  sleeps : List Nat

/-- The receipt-collection of the part-upload phase as `upload` consumes it,
abstracted to sequential dispatch in part-number order: the receipts when
every part succeeds, the first failure's error otherwise.  This abstraction
is adequate only for properties that do not depend on executor scheduling
(which result `upload` sees, and which operation kinds can ever be issued);
the executor-faithful account of which parts issue storage calls is
`run_parts_pool` below.  (`upload_part` returning `None`, possible only with
`max_retries = 0`, would make the later `sorted(parts, ...)` call crash with
a `TypeError`; that crash is modelled here at collection time.) -/
def run_parts (max_retries : Nat) (part_op : Nat → Nat → Except PyErr String) :
    List PartTask → PartsPhase
  | [] => ⟨.ok [], [], []⟩
  | t :: ts =>
    let o := upload_part max_retries (part_op t.part_number) t.part_number
    let ops := List.replicate o.attempts (S3Op.uploadPart t.part_number)
    match o.result with
    | .error e => ⟨.error e, ops, o.sleeps⟩
    | .ok none => ⟨.error (.runtimeError "TypeError: NoneType"), ops, o.sleeps⟩
    | .ok (some r) =>
      let rest := run_parts max_retries part_op ts
      match rest.result with
      | .error e => ⟨.error e, ops ++ rest.ops, o.sleeps ++ rest.sleeps⟩
      | .ok rs => ⟨.ok (r :: rs), ops ++ rest.ops, o.sleeps ++ rest.sleeps⟩

/-- Collection of the pool futures' results: the first `fut.result()` that
raises propagates (the `as_completed` collection order is modelled as
submission order, which is exact whenever at most one future fails). -/
def collect_pool : List (Nat × PartOutcome) → Except PyErr (List PartReceipt)
  | [] => .ok []
  | (_, o) :: rest =>
    match o.result with
    | .error e => .error e
    | .ok none => .error (.runtimeError "TypeError: NoneType")
    | .ok (some r) =>
      match collect_pool rest with
      | .error e => .error e
      | .ok rs => .ok (r :: rs)

/-- The part-upload fan-out of `upload` under the source's executor
semantics: lines 453-467 submit every part task to the pool before any
result is collected, and the `with` block's exit calls `shutdown(wait=True)`
without cancelling queued futures, so every submitted task runs its full
`upload_part` loop to completion even when an exception propagates from
`fut.result()`.  Hence every task contributes its storage calls and sleeps to
the trace, whatever happened to any other task; only the collected `result`
short-circuits at the first raising future. -/
def run_parts_pool (max_retries : Nat) (part_op : Nat → Nat → Except PyErr String)
    (ts : List PartTask) : PartsPhase :=
  let outcomes := ts.map fun t =>
    (t.part_number, upload_part max_retries (part_op t.part_number) t.part_number)
  { result := collect_pool outcomes
    ops := (outcomes.map fun o => List.replicate o.2.attempts (S3Op.uploadPart o.1)).flatten
    sleeps := (outcomes.map fun o => o.2.sleeps).flatten }

/-- Observable outcome of `complete_with_timeout_retry`. -/
structure CompleteTrace where
  result : Except PyErr Unit
  ops : List S3Op
  sleeps : List Nat

/-- Loop body of `complete_with_timeout_retry`.  Per attempt: issue
`complete_multipart_upload`; on success return.  A client-side timeout sets
`no_such_upload = False`; a `(ClientError, BotoCoreError)` sets
`no_such_upload = is_no_such_upload_error(exc)`; other exception classes
propagate uncaught.  Unless `no_such_upload`, the body then sleeps `timeout`
seconds before the `head_object` check (which is itself wrapped in
`call_with_524_retry`).  A `ContentLength` equal to `expected_size` is
success; otherwise the current exception is re-raised when
`attempt == max_retries`, else the timeout is doubled and the loop repeats. -/
def complete_loop (max_retries expected_size : Nat)
    (complete_op : Nat → Except PyErr Unit)
    (head_op : Nat → Nat → Except PyErr Nat)
    (timeout attempt : Nat) : Nat → CompleteTrace
  | 0 => ⟨.ok (), [], []⟩
  | fuel + 1 =>
    match complete_op attempt with
    | .ok _ => ⟨.ok (), [S3Op.completeMultipartUpload], []⟩
    | .error e =>
      if isClientTimeout e || isClientError e || isBotoCoreError e then
        let no_such_upload := if isClientTimeout e then false else is_no_such_upload_error e
        let waitSleeps : List Nat := if no_such_upload then [] else [timeout]
        let h := call_with_524_retry max_retries (head_op attempt)
        let headOps := List.replicate h.attempts S3Op.headObject
        let merged : Bool :=
          match h.result with
          | .ok (some uploaded_size) => uploaded_size == expected_size
          | _ => false
        if merged then
          ⟨.ok (), S3Op.completeMultipartUpload :: headOps, waitSleeps ++ h.sleeps⟩
        else if attempt == max_retries then
          ⟨.error e, S3Op.completeMultipartUpload :: headOps, waitSleeps ++ h.sleeps⟩
        else
          let rest := complete_loop max_retries expected_size complete_op head_op
            (timeout * 2) (attempt + 1) fuel
          ⟨rest.result, S3Op.completeMultipartUpload :: (headOps ++ rest.ops),
            waitSleeps ++ h.sleeps ++ rest.sleeps⟩
      else ⟨.error e, [S3Op.completeMultipartUpload], []⟩

/-- `complete_with_timeout_retry(parts_sorted=..., initial_timeout=...,
expected_size=...)`: the loop entered at attempt 1 with the initial
timeout. -/
def complete_with_timeout_retry (max_retries expected_size : Nat)
    (complete_op : Nat → Except PyErr Unit)
    (head_op : Nat → Nat → Except PyErr Nat)
    (initial_timeout : Nat) : CompleteTrace :=
  complete_loop max_retries expected_size complete_op head_op initial_timeout 1 max_retries

/-- `sorted(parts, key=lambda x: x["PartNumber"])`: a stable sort by the
`PartNumber` key. -/
def sort_parts (parts : List PartReceipt) : List PartReceipt :=
  parts.mergeSort fun a b => decide (a.PartNumber ≤ b.PartNumber)

/-- The classes of `ValueError` the `__main__` validation raises. -/
inductive ConfigError where
  | emptyFile
  | chunkTooSmall
  | chunkTooLarge
  | tooManyParts
  deriving DecidableEq

/-- The validated plan: file size, chunk size and resulting part count. -/
structure UploadPlan where
  file_size : Nat
  part_size : Nat
  total_parts : Nat
  deriving DecidableEq

/-- The `__main__` validation sequence (lines 574-594): reject an empty file,
default the chunk size via `compute_chunk_size`, enforce the `[5 MiB, 5 GiB]`
chunk bounds, and reject plans needing more than `MAX_PARTS` parts. -/
def plan (file_size : Nat) (chunk_size_arg : Option Nat) : Except ConfigError UploadPlan :=
  if file_size ≤ 0 then .error .emptyFile
  else
    let chunk_size :=
      match chunk_size_arg with
      | some c => c
      | none => compute_chunk_size file_size
    if chunk_size < MIN_PART_SIZE_BYTES then .error .chunkTooSmall
    else if chunk_size > MAX_PART_SIZE_BYTES then .error .chunkTooLarge
    else
      let total_parts := ceil_div file_size chunk_size
      if total_parts > MAX_PARTS then .error .tooManyParts
      else .ok ⟨file_size, chunk_size, total_parts⟩

/-- Oracles for the outcomes of the network calls `upload` issues.  Each
oracle maps attempt numbers to that attempt's outcome; `part_op` is indexed
by part number first, `complete_op` receives the submitted (sorted) receipt
list, and `head_op` of the reconciler is indexed by the reconciler attempt
then the inner retry attempt. -/
structure Env where
  create_op : Nat → Except PyErr String
  part_op : Nat → Nat → Except PyErr String
  list_op : Nat → Except PyErr Nat
  complete_op : List PartReceipt → Nat → Except PyErr Unit
  recon_head_op : Nat → Nat → Except PyErr Nat
  final_head_op : Nat → Except PyErr Nat

/-- Observable outcome of `upload()`: the returned/raised value, the ordered
storage calls issued, the sleeps performed, and the final `self.upload_id`. -/
structure UploadResult where
  result : Except PyErr Unit
  ops : List S3Op
  sleeps : List Nat
  upload_id : Option String

/-- The main driver `upload()` (lines 422-521): create the multipart session,
dispatch all part tasks, cross-check the server-recorded part count, sort the
receipts, reconcile completion, and verify the final object size.  The
enclosing `except` block re-raises every failure with `self.upload_id` left
set; no abort call exists anywhere in the driver. -/
def upload (max_retries file_size part_size : Nat) (env : Env) : UploadResult :=
  let total_parts := ceil_div file_size part_size
  let completion_timeout := max 60 (5 * ceil_div file_size (1024 ^ 3))
  let c := call_with_524_retry max_retries env.create_op
  let cOps := List.replicate c.attempts S3Op.createMultipartUpload
  match c.result with
  | .error e => ⟨.error e, cOps, c.sleeps, none⟩
  | .ok none => ⟨.error (.runtimeError "TypeError: NoneType"), cOps, c.sleeps, none⟩
  | .ok (some upload_id) =>
    let pr := run_parts max_retries env.part_op (part_tasks file_size part_size)
    match pr.result with
    | .error e => ⟨.error e, cOps ++ pr.ops, c.sleeps ++ pr.sleeps, some upload_id⟩
    | .ok parts =>
      let l := call_with_524_retry max_retries env.list_op
      let lOps := List.replicate l.attempts S3Op.listParts
      match l.result with
      | .error e =>
        ⟨.error e, cOps ++ pr.ops ++ lOps, c.sleeps ++ pr.sleeps ++ l.sleeps, some upload_id⟩
      | .ok none =>
        ⟨.error (.runtimeError "TypeError: NoneType"), cOps ++ pr.ops ++ lOps,
          c.sleeps ++ pr.sleeps ++ l.sleeps, some upload_id⟩
      | .ok (some seen) =>
        if seen ≠ total_parts then
          ⟨.error (.runtimeError "part count mismatch"), cOps ++ pr.ops ++ lOps,
            c.sleeps ++ pr.sleeps ++ l.sleeps, some upload_id⟩
        else
          let parts_sorted := sort_parts parts
          let comp := complete_with_timeout_retry max_retries file_size
            (env.complete_op parts_sorted) env.recon_head_op completion_timeout
          match comp.result with
          | .error e =>
            ⟨.error e, cOps ++ pr.ops ++ lOps ++ comp.ops,
              c.sleeps ++ pr.sleeps ++ l.sleeps ++ comp.sleeps, some upload_id⟩
          | .ok _ =>
            let h := call_with_524_retry max_retries env.final_head_op
            let hOps := List.replicate h.attempts S3Op.headObject
            match h.result with
            | .error e =>
              ⟨.error e, cOps ++ pr.ops ++ lOps ++ comp.ops ++ hOps,
                c.sleeps ++ pr.sleeps ++ l.sleeps ++ comp.sleeps ++ h.sleeps, some upload_id⟩
            | .ok none =>
              ⟨.error (.runtimeError "TypeError: NoneType"),
                cOps ++ pr.ops ++ lOps ++ comp.ops ++ hOps,
                c.sleeps ++ pr.sleeps ++ l.sleeps ++ comp.sleeps ++ h.sleeps, some upload_id⟩
            | .ok (some uploaded_size) =>
              if uploaded_size ≠ file_size then
                ⟨.error (.runtimeError "Multipart upload verification failed: size mismatch"),
                  cOps ++ pr.ops ++ lOps ++ comp.ops ++ hOps,
                  c.sleeps ++ pr.sleeps ++ l.sleeps ++ comp.sleeps ++ h.sleeps, some upload_id⟩
              else
                ⟨.ok (), cOps ++ pr.ops ++ lOps ++ comp.ops ++ hOps,
                  c.sleeps ++ pr.sleeps ++ l.sleeps ++ comp.sleeps ++ h.sleeps, some upload_id⟩

/-! Concrete oracles used to evaluate the models on closed inputs. -/

/-- An operation that returns a 524 overload response on every attempt. -/
def op524 : Nat → Except PyErr Unit := fun _ => .error (.clientError 524 "")

/-- A part-upload oracle: part 2 hits 507 Insufficient Storage on every
attempt, every other part succeeds at once. -/
def partOp507 : Nat → Nat → Except PyErr String :=
  fun part_number _ => if part_number == 2 then .error (.clientError 507 "") else .ok "etag"

/-- A finalize call that times out client-side on every attempt. -/
def completeOpTimeout : Nat → Except PyErr Unit := fun _ => .error .readTimeout

/-- A HEAD oracle that always reports content length 42. -/
def headOp42 : Nat → Nat → Except PyErr Nat := fun _ _ => .ok 42

/-- An environment in which every call succeeds at its first attempt except
that part 2 reports 507, used to evaluate `upload` on a failing run. -/
def env507 : Env where
  create_op := fun _ => .ok "uid-507"
  part_op := partOp507
  list_op := fun _ => .ok 2
  complete_op := fun _ _ => .ok ()
  recon_head_op := fun _ _ => .ok 10
  final_head_op := fun _ => .ok 10

/-- An environment in which the upload completes but the final HEAD reports
999 bytes instead of the local size, used to evaluate the verification
check. -/
def envBadHead : Env where
  create_op := fun _ => .ok "uid-bad"
  part_op := fun _ _ => .ok "etag"
  list_op := fun _ => .ok 2
  complete_op := fun _ _ => .ok ()
  recon_head_op := fun _ _ => .ok 999
  final_head_op := fun _ => .ok 999

/-! Arithmetic helper lemmas about `ceil_div`. -/

theorem ceil_div_eq_ceilDiv (a b : Nat) : ceil_div a b = a ⌈/⌉ b := rfl

theorem le_mul_ceil_div {b : Nat} (hb : 0 < b) (a : Nat) : a ≤ b * ceil_div a b := by
  have h := le_smul_ceilDiv (a := b) (b := a) hb
  simpa [ceil_div_eq_ceilDiv, smul_eq_mul] using h

theorem ceil_div_le_iff {b : Nat} (hb : 0 < b) {a m : Nat} :
    ceil_div a b ≤ m ↔ a ≤ m * b := by
  rw [ceil_div_eq_ceilDiv, Nat.mul_comm]
  exact ceilDiv_le_iff_le_mul hb

theorem le_ceil_div_mul {a b : Nat} (hb : 0 < b) : a ≤ ceil_div a b * b := by
  have h := le_mul_ceil_div hb a
  rwa [Nat.mul_comm] at h

theorem ceil_div_pos {a b : Nat} (hb : 0 < b) (ha : 0 < a) : 0 < ceil_div a b := by
  by_contra h
  push_neg at h
  have h2 := (ceil_div_le_iff hb).1 (by omega : ceil_div a b ≤ 0)
  omega

theorem ceil_div_pred_mul_lt {a b : Nat} (hb : 0 < b) (ha : 0 < a) :
    (ceil_div a b - 1) * b < a := by
  by_contra h
  push_neg at h
  have h1 : ceil_div a b ≤ ceil_div a b - 1 := (ceil_div_le_iff hb).2 h
  have h2 : 0 < ceil_div a b := ceil_div_pos hb ha
  omega

/-- C5: for every `file_size > 0`, the default part size computed when no part
size is requested equals the larger of the fixed 50 MiB default and
`ceil(file_size / 10000)`, and this choice guarantees
`ceil(file_size / chosen_part_size) ≤ 10000`, so the 10000-part ceiling is
never violated by the default. -/
theorem compute_chunk_size_spec (file_size : Nat) (_h : 0 < file_size) :
    compute_chunk_size file_size
      = max DEFAULT_PART_SIZE_BYTES (ceil_div file_size MAX_PARTS) ∧
    ceil_div file_size (compute_chunk_size file_size) ≤ MAX_PARTS := by
  have hM : (0 : Nat) < MAX_PARTS := by decide
  have hreq : file_size ≤ MAX_PARTS * ceil_div file_size MAX_PARTS := le_mul_ceil_div hM _
  have hge : ceil_div file_size MAX_PARTS ≤ compute_chunk_size file_size := le_max_right _ _
  have hpos : 0 < compute_chunk_size file_size :=
    lt_of_lt_of_le
      (by decide : (0 : Nat) < max DEFAULT_PART_SIZE_BYTES MIN_PART_SIZE_BYTES)
      (le_max_left _ _)
  constructor
  · unfold compute_chunk_size DEFAULT_PART_SIZE_BYTES MIN_PART_SIZE_BYTES
    omega
  · rw [ceil_div_le_iff hpos]
    calc file_size ≤ MAX_PARTS * ceil_div file_size MAX_PARTS := hreq
      _ ≤ MAX_PARTS * compute_chunk_size file_size := Nat.mul_le_mul_left _ hge

/-- Witness for `compute_chunk_size_spec` at `file_size = 10^12` (where the
`ceil(file_size / 10000)` branch of the maximum wins). -/
theorem compute_chunk_size_spec_witness :
    compute_chunk_size 1000000000000
      = max DEFAULT_PART_SIZE_BYTES (ceil_div 1000000000000 MAX_PARTS) ∧
    ceil_div 1000000000000 (compute_chunk_size 1000000000000) ≤ MAX_PARTS :=
  compute_chunk_size_spec 1000000000000 (by decide)

/-- C4: for every `file_size > 0` and part size within `[5 MiB, 5 GiB]` whose
resulting part count is at most 10000, planning returns
`total_parts = ceil(file_size / part_size)`; a zero file size, a requested
part size outside the bounds, or a resulting part count over 10000 each fail
with a `ConfigError`; and the concrete 120 MiB file with the defaulted 50 MiB
chunk yields 3 parts whose last part is exactly 20971520 bytes. -/
theorem plan_spec (fs ps : Nat) (hfs : 0 < fs)
    (hlo : MIN_PART_SIZE_BYTES ≤ ps) (hhi : ps ≤ MAX_PART_SIZE_BYTES)
    (hcount : ceil_div fs ps ≤ MAX_PARTS) :
    plan fs (some ps) = .ok ⟨fs, ps, ceil_div fs ps⟩ ∧
    (∀ r, plan 0 r = .error ConfigError.emptyFile) ∧
    (∀ n q, 0 < n → q < MIN_PART_SIZE_BYTES →
      plan n (some q) = .error ConfigError.chunkTooSmall) ∧
    (∀ n q, 0 < n → MAX_PART_SIZE_BYTES < q →
      plan n (some q) = .error ConfigError.chunkTooLarge) ∧
    (∀ n q, 0 < n → MIN_PART_SIZE_BYTES ≤ q → q ≤ MAX_PART_SIZE_BYTES →
      MAX_PARTS < ceil_div n q →
      plan n (some q) = .error ConfigError.tooManyParts) ∧
    plan 125829120 none = .ok ⟨125829120, 52428800, 3⟩ ∧
    (part_tasks 125829120 52428800).getLast? = some ⟨3, 104857600, 20971520⟩ := by
  refine ⟨?_, fun r => rfl, ?_, ?_, ?_, rfl, rfl⟩
  · unfold plan
    rw [if_neg (by omega)]
    simp only
    rw [if_neg (by omega), if_neg (by omega), if_neg (by omega)]
  · intro n q hn hq
    unfold plan
    rw [if_neg (by omega)]
    simp only
    rw [if_pos hq]
  · intro n q hn hq
    have hminmax : MIN_PART_SIZE_BYTES < MAX_PART_SIZE_BYTES := by decide
    unfold plan
    rw [if_neg (by omega)]
    simp only
    rw [if_neg (by omega), if_pos hq]
  · intro n q hn hq1 hq2 hq3
    unfold plan
    rw [if_neg (by omega)]
    simp only
    rw [if_neg (by omega), if_neg (by omega), if_pos hq3]

/-- Witness for `plan_spec` at the spec's concrete scenario:
`file_size = 125829120`, `part_size = 52428800`. -/
theorem plan_spec_witness :
    plan 125829120 (some 52428800) = .ok ⟨125829120, 52428800, ceil_div 125829120 52428800⟩ ∧
    plan 125829120 none = .ok ⟨125829120, 52428800, 3⟩ ∧
    (part_tasks 125829120 52428800).getLast? = some ⟨3, 104857600, 20971520⟩ :=
  have h := plan_spec 125829120 52428800 (by decide) (by decide) (by decide) (by decide)
  ⟨h.1, h.2.2.2.2.2.1, h.2.2.2.2.2.2⟩

/-- C10: for every `file_size ≥ 1` and `part_size ≥ 1` the generated part
tasks carry consecutive 1-based part numbers `1..ceil(file_size/part_size)`,
each task reads offset `(part_number - 1) * part_size` with length
`min(part_size, file_size - offset)`, all lengths are positive, the byte
ranges are contiguous and pairwise disjoint, and the lengths sum to exactly
`file_size`. -/
theorem part_tasks_partition (fs ps : Nat) (hfs : 0 < fs) (hps : 0 < ps) :
    ((part_tasks fs ps).map PartTask.part_number = List.range' 1 (ceil_div fs ps)) ∧
    (∀ t ∈ part_tasks fs ps,
      t.offset = (t.part_number - 1) * ps ∧
      t.bytes_to_read = min ps (fs - t.offset) ∧ 0 < t.bytes_to_read) ∧
    (part_tasks fs ps).Chain' (fun a b => a.offset + a.bytes_to_read = b.offset) ∧
    (part_tasks fs ps).Pairwise (fun a b => a.offset + a.bytes_to_read ≤ b.offset) ∧
    ((part_tasks fs ps).map PartTask.bytes_to_read).sum = fs := by
  have hn : 0 < ceil_div fs ps := ceil_div_pos hps hfs
  have hub : fs ≤ ceil_div fs ps * ps := le_ceil_div_mul hps
  have hlb : (ceil_div fs ps - 1) * ps < fs := ceil_div_pred_mul_lt hps hfs
  obtain ⟨m, hm⟩ : ∃ m, ceil_div fs ps = m + 1 := ⟨ceil_div fs ps - 1, by omega⟩
  rw [hm] at hub hlb ⊢
  simp only [Nat.add_sub_cancel] at hlb
  have hsuccmul : (m + 1) * ps = m * ps + ps := Nat.succ_mul m ps
  refine ⟨?_, ?_, ?_, ?_, ?_⟩
  · unfold part_tasks
    rw [hm, List.map_map, List.range'_eq_map_range]
    exact List.map_congr_left fun k _ => by simp [Nat.add_comm]
  · intro t ht
    unfold part_tasks at ht
    rw [hm, List.mem_map] at ht
    obtain ⟨k, hk, rfl⟩ := ht
    rw [List.mem_range] at hk
    refine ⟨by simp, by simp, ?_⟩
    have h1 : k * ps ≤ m * ps := Nat.mul_le_mul_right ps (by omega)
    simp only
    omega
  · unfold part_tasks
    rw [hm, List.chain'_map, List.chain'_range_succ]
    intro k hk
    simp only [Nat.succ_eq_add_one]
    have h1 : (k + 1) * ps ≤ m * ps := Nat.mul_le_mul_right ps (by omega)
    have h2 : (k + 1) * ps = k * ps + ps := Nat.succ_mul k ps
    omega
  · unfold part_tasks
    rw [List.pairwise_map]
    refine List.Pairwise.imp ?_ (List.pairwise_lt_range _)
    intro k k2 hkk
    simp only
    have h1 : (k + 1) * ps ≤ k2 * ps := Nat.mul_le_mul_right ps (by omega)
    have h2 : (k + 1) * ps = k * ps + ps := Nat.succ_mul k ps
    have h3 : min ps (fs - k * ps) ≤ ps := Nat.min_le_left _ _
    omega
  · unfold part_tasks
    rw [hm, List.map_map, List.range_succ, List.map_append, List.sum_append]
    have hmap2 : (List.range m).map (PartTask.bytes_to_read ∘ fun k =>
        PartTask.mk (k + 1) (k * ps) (min ps (fs - k * ps))) = List.replicate m ps := by
      refine List.eq_replicate_iff.2 ⟨by simp, ?_⟩
      intro x hx
      rw [List.mem_map] at hx
      obtain ⟨k, hk, rfl⟩ := hx
      rw [List.mem_range] at hk
      simp only [Function.comp_apply]
      have h1 : (k + 1) * ps ≤ m * ps := Nat.mul_le_mul_right ps (by omega)
      have h2 : (k + 1) * ps = k * ps + ps := Nat.succ_mul k ps
      omega
    rw [hmap2]
    simp only [List.map_cons, Function.comp_apply, List.map_nil, List.sum_cons,
      List.sum_nil, List.sum_replicate, smul_eq_mul]
    omega

/-- Witness for `part_tasks_partition` at `file_size = 10`, `part_size = 4`
(three parts of sizes 4, 4, 2). -/
theorem part_tasks_partition_witness :
    ((part_tasks 10 4).map PartTask.part_number = List.range' 1 (ceil_div 10 4)) ∧
    (part_tasks 10 4).Chain' (fun a b => a.offset + a.bytes_to_read = b.offset) ∧
    (part_tasks 10 4).Pairwise (fun a b => a.offset + a.bytes_to_read ≤ b.offset) ∧
    ((part_tasks 10 4).map PartTask.bytes_to_read).sum = 10 :=
  have h := part_tasks_partition 10 4 (by decide) (by decide)
  ⟨h.1, h.2.2.1, h.2.2.2.1, h.2.2.2.2⟩

/-- One non-final iteration of the `call_with_524_retry` loop on a retryable
error: sleep `2 ^ attempt` and recurse at `attempt + 1`. -/
theorem retry_loop_step {α : Type} (mr : Nat) (op : Nat → Except PyErr α)
    (attempt f : Nat) (e2 : PyErr)
    (he2 : op attempt = .error e2)
    (hret : (is_524_error e2 || isClientTimeout e2) = true)
    (hne : (attempt == mr) = false) :
    call_with_524_retry_loop mr op attempt (f + 1) =
      ⟨(call_with_524_retry_loop mr op (attempt + 1) f).result,
        (call_with_524_retry_loop mr op (attempt + 1) f).attempts + 1,
        2 ^ attempt :: (call_with_524_retry_loop mr op (attempt + 1) f).sleeps⟩ := by
  conv_lhs => unfold call_with_524_retry_loop
  rw [he2]
  cases e2 with
  | clientError status code =>
    simp only [is_524_error, isClientTimeout, Bool.or_eq_true] at hret
    rcases hret with h | h
    · simp [isClientError, is_524_error, h, hne]
    · simp at h
  | readTimeout => simp [isClientError, isClientTimeout, hne]
  | connectTimeout => simp [isClientError, isClientTimeout, hne]
  | botoCoreError msg => simp [is_524_error, isClientTimeout] at hret
  | runtimeError msg => simp [is_524_error, isClientTimeout] at hret

/-- The final iteration of the `call_with_524_retry` loop on a retryable
error: the exception is re-raised with no sleep. -/
theorem retry_loop_last {α : Type} (mr : Nat) (op : Nat → Except PyErr α)
    (attempt f : Nat) (e2 : PyErr)
    (he2 : op attempt = .error e2)
    (hret : (is_524_error e2 || isClientTimeout e2) = true)
    (heq : (attempt == mr) = true) :
    call_with_524_retry_loop mr op attempt (f + 1) = ⟨.error e2, 1, []⟩ := by
  conv_lhs => unfold call_with_524_retry_loop
  rw [he2]
  cases e2 with
  | clientError status code =>
    simp only [is_524_error, isClientTimeout, Bool.or_eq_true] at hret
    rcases hret with h | h
    · simp [isClientError, is_524_error, h, heq]
    · simp at h
  | readTimeout => simp [isClientError, isClientTimeout, heq]
  | connectTimeout => simp [isClientError, isClientTimeout, heq]
  | botoCoreError msg => simp [is_524_error, isClientTimeout] at hret
  | runtimeError msg => simp [is_524_error, isClientTimeout] at hret

/-- Behaviour of the `call_with_524_retry` loop when every attempt in a
window fails with a retryable (524 or client-timeout) error: it consumes the
whole window, sleeping `2 ^ attempt` between consecutive attempts, and
surfaces the final attempt's error. -/
theorem call_with_524_retry_loop_exhausts {α : Type} (mr : Nat)
    (op : Nat → Except PyErr α) (e : PyErr) :
    ∀ fuel attempt, 1 ≤ fuel → attempt + fuel = mr + 1 →
    (∀ a, attempt ≤ a → a ≤ mr →
      ∃ e2, op a = .error e2 ∧ (is_524_error e2 || isClientTimeout e2) = true) →
    op mr = .error e →
    call_with_524_retry_loop mr op attempt fuel =
      ⟨.error e, fuel, (List.range' attempt (fuel - 1)).map fun a => 2 ^ a⟩ := by
  intro fuel
  induction fuel with
  | zero => omega
  | succ f ih =>
    intro attempt _ hsum hfail hlast
    obtain ⟨e2, he2, hret⟩ := hfail attempt (le_refl _) (by omega)
    rcases Nat.eq_or_lt_of_le (by omega : attempt ≤ mr) with heq | hlt
    · have hf : f = 0 := by omega
      subst hf
      rw [heq, hlast] at he2
      cases he2
      rw [retry_loop_last mr op attempt 0 e (by rw [heq]; exact hlast) hret (by simp [heq])]
      simp
    · have hne : (attempt == mr) = false := by
        simp only [beq_eq_false_iff_ne, ne_eq]
        omega
      rw [retry_loop_step mr op attempt f e2 he2 hret hne,
        ih (attempt + 1) (by omega) (by omega)
          (fun a ha1 ha2 => hfail a (by omega) ha2) hlast]
      obtain ⟨f2, rfl⟩ : ∃ f2, f = f2 + 1 := ⟨f - 1, by omega⟩
      simp [List.range'_succ]

/-- C2 (amended): if every failure is retryable (a 524 overload response or a
client-side read/connect timeout) and the operation fails on every attempt,
`call_with_524_retry` performs exactly `max_retries` attempts, sleeps
`2 ^ attempt` seconds after each failed attempt that is followed by another
one (so `max_retries = 3` gives sleeps of 2s and 4s between the three
attempts, with no sleep after the final attempt), and surfaces the final
attempt's error verbatim. -/
theorem call_with_524_retry_exhausts {α : Type} (mr : Nat)
    (op : Nat → Except PyErr α) (e : PyErr)
    (hmr : 1 ≤ mr)
    (hfail : ∀ a, 1 ≤ a → a ≤ mr →
      ∃ e2, op a = .error e2 ∧ (is_524_error e2 || isClientTimeout e2) = true)
    (hlast : op mr = .error e) :
    call_with_524_retry mr op =
      ⟨.error e, mr, (List.range' 1 (mr - 1)).map fun a => 2 ^ a⟩ := by
  unfold call_with_524_retry
  exact call_with_524_retry_loop_exhausts mr op e mr 1 hmr (by omega) hfail hlast

/-- Witness for `call_with_524_retry_exhausts`: three attempts against a
permanently overloaded endpoint, sleeps `[2, 4]`, final 524 error surfaced. -/
theorem call_with_524_retry_exhausts_witness :
    call_with_524_retry 3 op524 =
      ⟨.error (.clientError 524 ""), 3, (List.range' 1 (3 - 1)).map fun a => 2 ^ a⟩ :=
  call_with_524_retry_exhausts 3 op524 (.clientError 524 "") (by decide)
    (fun a _ _ => ⟨.clientError 524 "", rfl, by decide⟩) rfl

/-- Counterexample to C2 as stated: with `max_retries = 3` and every attempt
failing with a 524 overload response, the sleeps performed between the three
attempts are 2s and 4s only — not the claimed 2s/4s/8s (the third attempt
re-raises immediately, with no `2 ^ 3` sleep). -/
theorem call_with_524_retry_three_attempt_sleeps :
    (call_with_524_retry 3 op524).sleeps = [2, 4] ∧
    (call_with_524_retry 3 op524).sleeps ≠ [2, 4, 8] := by
  constructor
  · rfl
  · decide

/-- C6: whatever order the concurrent workers delivered the part receipts in,
as long as their part numbers are distinct, the list submitted to
`CompleteMultipartUpload` — `sorted(parts, key=lambda x: x["PartNumber"])` —
is strictly ascending by part number. -/
theorem sort_parts_strictly_ascending (parts : List PartReceipt)
    (hnodup : (parts.map PartReceipt.PartNumber).Nodup) :
    (sort_parts parts).Chain' fun a b => a.PartNumber < b.PartNumber := by
  have hsorted := @List.sorted_mergeSort PartReceipt
    (fun a b : PartReceipt => decide (a.PartNumber ≤ b.PartNumber))
    (fun a b c h1 h2 => by
      simp only [decide_eq_true_eq] at h1 h2 ⊢
      omega)
    (fun a b => by
      simp only [Bool.or_eq_true, decide_eq_true_eq]
      omega)
    parts
  have hperm : (sort_parts parts).Perm parts := List.mergeSort_perm parts _
  have hnodup2 : parts.Pairwise fun a b => a.PartNumber ≠ b.PartNumber := by
    rw [← List.pairwise_map]
    exact hnodup
  have hnodup3 : (sort_parts parts).Pairwise fun a b => a.PartNumber ≠ b.PartNumber :=
    (hperm.pairwise_iff (by intro x y h; exact Ne.symm h)).2 hnodup2
  have hpair : (sort_parts parts).Pairwise fun a b => a.PartNumber < b.PartNumber := by
    have := List.Pairwise.and hsorted hnodup3
    refine this.imp ?_
    intro a b hab
    obtain ⟨h1, h2⟩ := hab
    simp only [decide_eq_true_eq] at h1
    omega
  exact hpair.chain'

/-- Witness for `sort_parts_strictly_ascending` on receipts delivered in the
order 2, 1, 3. -/
theorem sort_parts_strictly_ascending_witness :
    (sort_parts [⟨2, "b"⟩, ⟨1, "a"⟩, ⟨3, "c"⟩]).Chain'
      (fun a b => a.PartNumber < b.PartNumber) :=
  sort_parts_strictly_ascending [⟨2, "b"⟩, ⟨1, "a"⟩, ⟨3, "c"⟩] (by decide)

/-- An operation wrapped in `call_with_524_retry` that succeeds at its first
attempt is called exactly once, with no sleeps. -/
theorem retry_first_ok {α : Type} (mr : Nat) (op : Nat → Except PyErr α) (v : α)
    (hmr : 1 ≤ mr) (h : op 1 = .ok v) :
    call_with_524_retry mr op = ⟨.ok (some v), 1, []⟩ := by
  obtain ⟨k, rfl⟩ : ∃ k, mr = k + 1 := ⟨mr - 1, by omega⟩
  unfold call_with_524_retry
  conv_lhs => unfold call_with_524_retry_loop
  rw [h]

/-- C1: if the first `complete_multipart_upload` call fails with a
client-side timeout and the following `HeadObject` query reports a
`ContentLength` equal to the expected size, `complete_with_timeout_retry`
returns success after exactly one HEAD call, with no second
`complete_multipart_upload` call, consuming no further attempts. -/
theorem complete_reconciles_after_timeout
    (mr expected_size initial_timeout : Nat)
    (complete_op : Nat → Except PyErr Unit) (head_op : Nat → Nat → Except PyErr Nat)
    (hmr : 1 ≤ mr)
    (hto : complete_op 1 = .error .readTimeout)
    (hhead : head_op 1 1 = .ok expected_size) :
    complete_with_timeout_retry mr expected_size complete_op head_op initial_timeout =
      ⟨.ok (), [S3Op.completeMultipartUpload, S3Op.headObject], [initial_timeout]⟩ := by
  obtain ⟨k, rfl⟩ : ∃ k, mr = k + 1 := ⟨mr - 1, by omega⟩
  have hh : call_with_524_retry (k + 1) (head_op 1) = ⟨.ok (some expected_size), 1, []⟩ :=
    retry_first_ok (k + 1) (head_op 1) expected_size (by omega) hhead
  unfold complete_with_timeout_retry
  conv_lhs => unfold complete_loop
  rw [hto]
  simp [isClientTimeout, isClientError, isBotoCoreError, is_no_such_upload_error, hh,
    List.replicate]

/-- Witness for `complete_reconciles_after_timeout`: one timed-out finalize,
one HEAD reporting the expected 42 bytes, immediate success. -/
theorem complete_reconciles_after_timeout_witness :
    complete_with_timeout_retry 5 42 completeOpTimeout headOp42 60 =
      ⟨.ok (), [S3Op.completeMultipartUpload, S3Op.headObject], [60]⟩ :=
  complete_reconciles_after_timeout 5 42 60 completeOpTimeout headOp42 (by decide) rfl rfl

/-- Counterexample to C8 as stated: after the finalize call times out
client-side (and the very next HEAD query would already report the expected
size), the reconciler still performs a `time.sleep(timeout)` of the full 60
seconds before its one metadata query — the sleep trace is `[60]`, not
empty. -/
theorem complete_timeout_sleeps_before_head :
    (complete_with_timeout_retry 5 42 completeOpTimeout headOp42 60).sleeps = [60] ∧
    (complete_with_timeout_retry 5 42 completeOpTimeout headOp42 60).sleeps ≠ [] := by
  constructor
  · rfl
  · decide

/-- C8 (amended): after a client-side timeout of the finalize call the
reconciler sleeps `timeout` seconds before the object-metadata query, exactly
as for other caught server/network errors; only a "no such upload" error
proceeds to the metadata query immediately with no sleep. -/
theorem complete_sleep_policy
    (mr expected_size initial_timeout : Nat) (e : PyErr)
    (complete_op : Nat → Except PyErr Unit) (head_op : Nat → Nat → Except PyErr Nat)
    (hmr : 1 ≤ mr)
    (hc : complete_op 1 = .error e)
    (hcaught : (isClientTimeout e || isClientError e || isBotoCoreError e) = true)
    (hhead : head_op 1 1 = .ok expected_size) :
    complete_with_timeout_retry mr expected_size complete_op head_op initial_timeout =
      ⟨.ok (), [S3Op.completeMultipartUpload, S3Op.headObject],
        if is_no_such_upload_error e then [] else [initial_timeout]⟩ := by
  obtain ⟨k, rfl⟩ : ∃ k, mr = k + 1 := ⟨mr - 1, by omega⟩
  have hh : call_with_524_retry (k + 1) (head_op 1) = ⟨.ok (some expected_size), 1, []⟩ :=
    retry_first_ok (k + 1) (head_op 1) expected_size (by omega) hhead
  unfold complete_with_timeout_retry
  conv_lhs => unfold complete_loop
  rw [hc]
  cases e with
  | clientError status code =>
    cases h2 : code == "NoSuchUpload" <;>
      simp [isClientTimeout, isClientError, isBotoCoreError, is_no_such_upload_error,
        hh, h2, List.replicate]
  | readTimeout =>
    simp [isClientTimeout, isClientError, isBotoCoreError, is_no_such_upload_error,
      hh, List.replicate]
  | connectTimeout =>
    simp [isClientTimeout, isClientError, isBotoCoreError, is_no_such_upload_error,
      hh, List.replicate]
  | botoCoreError msg =>
    simp [isClientTimeout, isClientError, isBotoCoreError, is_no_such_upload_error,
      hh, List.replicate]
  | runtimeError msg =>
    simp [isClientTimeout, isClientError, isBotoCoreError] at hcaught

/-- Witness for `complete_sleep_policy`: a read timeout at attempt 1, a
matching HEAD, and the resulting single 60-second sleep. -/
theorem complete_sleep_policy_witness :
    complete_with_timeout_retry 5 42 completeOpTimeout headOp42 60 =
      ⟨.ok (), [S3Op.completeMultipartUpload, S3Op.headObject],
        if is_no_such_upload_error .readTimeout then [] else [60]⟩ :=
  complete_sleep_policy 5 42 60 .readTimeout completeOpTimeout headOp42 (by decide) rfl rfl
    rfl

/-- Dispatching a task list that begins with a fully successful prefix
processes the prefix and then continues with the rest, concatenating the
receipt, operation and sleep traces. -/
theorem run_parts_append (mr : Nat) (op : Nat → Nat → Except PyErr String)
    (pre rest : List PartTask) (rs : List PartReceipt)
    (hpre : (run_parts mr op pre).result = .ok rs) :
    run_parts mr op (pre ++ rest) =
      ⟨(match (run_parts mr op rest).result with
         | .ok rs2 => .ok (rs ++ rs2)
         | .error e => .error e),
       (run_parts mr op pre).ops ++ (run_parts mr op rest).ops,
       (run_parts mr op pre).sleeps ++ (run_parts mr op rest).sleeps⟩ := by
  induction pre generalizing rs with
  | nil =>
    simp only [run_parts] at hpre
    cases hpre
    cases hrest : run_parts mr op rest with
    | mk res ops2 sl2 =>
      simp only [run_parts, hrest, List.nil_append]
      cases res <;> simp
  | cons t pre2 ih =>
    rw [List.cons_append]
    simp only [run_parts] at hpre ⊢
    cases ho : (upload_part mr (op t.part_number) t.part_number).result with
    | error e => rw [ho] at hpre; simp at hpre
    | ok v =>
      cases v with
      | none => rw [ho] at hpre; simp at hpre
      | some r =>
        rw [ho] at hpre
        simp only [List.append_eq] at hpre ⊢
        cases hpre2 : (run_parts mr op pre2).result with
        | error e => rw [hpre2] at hpre; simp at hpre
        | ok rs2 =>
          rw [hpre2] at hpre
          simp only [Except.ok.injEq] at hpre
          subst hpre
          rw [ih rs2 hpre2]
          simp only
          cases hrest : (run_parts mr op rest).result <;>
            simp [hrest, List.append_assoc]

/-- A part-upload loop given at least one iteration makes at least one
attempt. -/
theorem upload_part_loop_attempts_pos (mr : Nat) (op : Nat → Except PyErr String)
    (pn attempt f : Nat) :
    1 ≤ (upload_part_loop mr op pn attempt (f + 1)).attempts := by
  unfold upload_part_loop
  cases h : op attempt with
  | ok etag => simp
  | error e =>
    dsimp only
    split
    · split
      · simp
      · split
        · simp
        · simp
    · simp

/-- Every task submitted to the pool makes at least one storage call, which
therefore appears in the pool trace whatever happened to the other tasks. -/
theorem pool_ops_cover (mr : Nat) (op : Nat → Nat → Except PyErr String)
    (ts : List PartTask) (t : PartTask) (hmr : 1 ≤ mr) (ht : t ∈ ts) :
    S3Op.uploadPart t.part_number ∈ (run_parts_pool mr op ts).ops := by
  obtain ⟨k, rfl⟩ : ∃ k, mr = k + 1 := ⟨mr - 1, by omega⟩
  unfold run_parts_pool
  dsimp only
  rw [List.map_map, List.mem_flatten]
  refine ⟨List.replicate (upload_part (k + 1) (op t.part_number) t.part_number).attempts
      (S3Op.uploadPart t.part_number), ?_, ?_⟩
  · rw [List.mem_map]
    exact ⟨t, ht, rfl⟩
  · rw [List.mem_replicate]
    refine ⟨?_, rfl⟩
    have h := upload_part_loop_attempts_pos (k + 1) (op t.part_number) t.part_number 1 k
    unfold upload_part
    omega

/-- `collect_pool` surfaces the first failing future after a fully
successful prefix. -/
theorem collect_pool_prefix_ok (outs : List (Nat × PartOutcome))
    (n : Nat) (o : PartOutcome) (rest : List (Nat × PartOutcome)) (e : PyErr)
    (hpre : ∀ p ∈ outs, ∃ r, p.2.result = Except.ok (some r))
    (he : o.result = .error e) :
    collect_pool (outs ++ (n, o) :: rest) = .error e := by
  induction outs with
  | nil =>
    simp only [List.nil_append, collect_pool]
    rw [he]
  | cons p outs ih =>
    obtain ⟨pn, po⟩ := p
    obtain ⟨r, hr⟩ := hpre (pn, po) (by simp)
    simp only [List.cons_append, collect_pool]
    rw [hr]
    dsimp only
    simp only [List.append_eq]
    rw [ih fun q hq => hpre q (by simp [hq])]

/-- Counterexample to C3 as stated: part 2 of three fails with 507 on every
attempt, the upload fails with the storage error — yet the already-submitted
part 3 still executes and issues its upload call, because every part future
is submitted before any result is collected and pool shutdown waits for
queued futures without cancelling them.  The remaining parts are uploaded,
not skipped. -/
theorem pool_uploads_remaining_parts_after_507 :
    (run_parts_pool 2 partOp507 [⟨1, 0, 5⟩, ⟨2, 5, 5⟩, ⟨3, 10, 5⟩]).result
      = .error (.runtimeError "Server reported insufficient storage") ∧
    S3Op.uploadPart 3 ∈ (run_parts_pool 2 partOp507 [⟨1, 0, 5⟩, ⟨2, 5, 5⟩, ⟨3, 10, 5⟩]).ops := by
  constructor
  · rfl
  · decide

/-- C3 (amended): a 507 Insufficient Storage response makes the part-upload
loop raise at once — whatever the current attempt, that single attempt is
consumed, with no sleep and no retry of the part — and the orchestrator's
upload fails with the storage error; but because every part task is submitted
to the worker pool before any result is collected and pool shutdown waits for
queued tasks without cancelling them, each remaining part still executes and
its upload call still appears in the trace. -/
theorem upload_part_507_pool_behaviour
    (mr : Nat) (op : Nat → Nat → Except PyErr String)
    (pre post : List PartTask) (t t2 : PartTask) (code code2 : String)
    (attempt fuel : Nat)
    (hmr : 1 ≤ mr) (hfuel : 1 ≤ fuel)
    (hpre : ∀ t3 ∈ pre, ∃ r,
      (upload_part mr (op t3.part_number) t3.part_number).result = Except.ok (some r))
    (hatt : op t.part_number attempt = .error (.clientError 507 code2))
    (h507 : op t.part_number 1 = .error (.clientError 507 code))
    (ht2 : t2 ∈ post) :
    upload_part_loop mr (op t.part_number) t.part_number attempt fuel =
      ⟨.error (.runtimeError "Server reported insufficient storage"), 1, []⟩ ∧
    (run_parts_pool mr op (pre ++ t :: post)).result
      = .error (.runtimeError "Server reported insufficient storage") ∧
    S3Op.uploadPart t2.part_number ∈ (run_parts_pool mr op (pre ++ t :: post)).ops := by
  have hstep : ∀ a f2 c, op t.part_number a = .error (.clientError 507 c) →
      upload_part_loop mr (op t.part_number) t.part_number a (f2 + 1) =
        ⟨.error (.runtimeError "Server reported insufficient storage"), 1, []⟩ := by
    intro a f2 c ha
    conv_lhs => unfold upload_part_loop
    rw [ha]
    simp [isBotoCoreError, isClientError, is_insufficient_storage_error]
  refine ⟨?_, ?_, ?_⟩
  · obtain ⟨f2, rfl⟩ : ∃ f2, fuel = f2 + 1 := ⟨fuel - 1, by omega⟩
    exact hstep attempt f2 code2 hatt
  · have hfirst : (upload_part mr (op t.part_number) t.part_number).result =
        .error (.runtimeError "Server reported insufficient storage") := by
      unfold upload_part
      obtain ⟨k, rfl⟩ : ∃ k, mr = k + 1 := ⟨mr - 1, by omega⟩
      rw [hstep 1 k code h507]
    unfold run_parts_pool
    dsimp only
    rw [List.map_append, List.map_cons]
    exact collect_pool_prefix_ok _ _ _ _ _
      (by
        intro p hp
        rw [List.mem_map] at hp
        obtain ⟨t3, ht3, rfl⟩ := hp
        exact hpre t3 ht3)
      hfirst
  · exact pool_ops_cover mr op (pre ++ t :: post) t2 hmr (by simp [ht2])

/-- Witness for `upload_part_507_pool_behaviour`: part 2 of three reports 507
at every attempt; the phase fails with the storage error while part 3's
upload call is still issued. -/
theorem upload_part_507_pool_behaviour_witness :
    upload_part_loop 2 (partOp507 2) 2 2 1 =
      ⟨.error (.runtimeError "Server reported insufficient storage"), 1, []⟩ ∧
    (run_parts_pool 2 partOp507 ([⟨1, 0, 5⟩] ++ ⟨2, 5, 5⟩ :: [⟨3, 10, 5⟩])).result
      = .error (.runtimeError "Server reported insufficient storage") ∧
    S3Op.uploadPart (PartTask.mk 3 10 5).part_number
      ∈ (run_parts_pool 2 partOp507 ([⟨1, 0, 5⟩] ++ ⟨2, 5, 5⟩ :: [⟨3, 10, 5⟩])).ops :=
  upload_part_507_pool_behaviour 2 partOp507 [⟨1, 0, 5⟩] [⟨3, 10, 5⟩] ⟨2, 5, 5⟩ ⟨3, 10, 5⟩
    "" "" 2 1 (by decide) (by decide)
    (by
      intro t3 ht3
      rw [List.mem_singleton] at ht3
      subst ht3
      exact ⟨⟨1, "etag"⟩, rfl⟩)
    rfl rfl (by decide)

/-- C7: `upload()` returns success only if the final `HeadObject` content
length equals the local file size, and if — after every earlier phase
including `complete_with_timeout_retry` succeeded — the queried size differs
from the local file size, `upload()` raises the verification `RuntimeError`
even though the completion call succeeded. -/
theorem upload_size_verification
    (mr fs ps : Nat) (env : Env) (uid : String) (parts : List PartReceipt) (s : Nat)
    (h1 : (call_with_524_retry mr env.create_op).result = .ok (some uid))
    (h2 : (run_parts mr env.part_op (part_tasks fs ps)).result = .ok parts)
    (h3 : (call_with_524_retry mr env.list_op).result = .ok (some (ceil_div fs ps)))
    (h4 : (complete_with_timeout_retry mr fs (env.complete_op (sort_parts parts))
        env.recon_head_op (max 60 (5 * ceil_div fs (1024 ^ 3)))).result = .ok ())
    (h5 : (call_with_524_retry mr env.final_head_op).result = .ok (some s)) :
    ((upload mr fs ps env).result = .ok () → s = fs) ∧
    (s ≠ fs → (upload mr fs ps env).result
        = .error (.runtimeError "Multipart upload verification failed: size mismatch")) := by
  have hred : (upload mr fs ps env).result =
      if s ≠ fs
      then .error (.runtimeError "Multipart upload verification failed: size mismatch")
      else .ok () := by
    unfold upload
    dsimp only
    rw [h1, h2, h3]
    dsimp only
    rw [if_neg (fun hh => hh rfl), h4]
    dsimp only
    rw [h5]
    by_cases hs : s = fs <;> simp [hs]
  constructor
  · intro hok
    rw [hred] at hok
    by_contra hs
    rw [if_pos hs] at hok
    simp at hok
  · intro hs
    rw [hred, if_pos hs]

/-- Witness for `upload_size_verification`: in `envBadHead` the final HEAD
reports 999 bytes for a 10-byte local file, so `upload` fails with the
verification error even though completion succeeded. -/
theorem upload_size_verification_witness :
    (upload 1 10 5 envBadHead).result
      = .error (.runtimeError "Multipart upload verification failed: size mismatch") :=
  (upload_size_verification 1 10 5 envBadHead "uid-bad" [⟨1, "etag"⟩, ⟨2, "etag"⟩] 999
    rfl rfl rfl rfl rfl).2 (by decide)

/-- No trace of the part-upload phase ever contains an abort call. -/
theorem abort_not_in_run_parts (mr : Nat) (op : Nat → Nat → Except PyErr String) :
    ∀ ts : List PartTask, S3Op.abortMultipartUpload ∉ (run_parts mr op ts).ops := by
  intro ts
  induction ts with
  | nil => simp [run_parts]
  | cons t ts ih =>
    simp only [run_parts]
    cases ho : (upload_part mr (op t.part_number) t.part_number).result with
    | error e => simp [List.mem_replicate]
    | ok v =>
      cases v with
      | none => simp [List.mem_replicate]
      | some r =>
        cases hrest : (run_parts mr op ts).result <;>
          simp_all [List.mem_replicate, List.mem_append]

/-- No trace of the completion reconciler ever contains an abort call. -/
theorem abort_not_in_complete_loop (mr es : Nat)
    (cop : Nat → Except PyErr Unit) (hop : Nat → Nat → Except PyErr Nat) :
    ∀ fuel timeout attempt,
      S3Op.abortMultipartUpload ∉ (complete_loop mr es cop hop timeout attempt fuel).ops := by
  intro fuel
  induction fuel with
  | zero => intro timeout attempt; simp [complete_loop]
  | succ f ih =>
    intro timeout attempt
    conv in complete_loop mr es cop hop timeout attempt (f + 1) => unfold complete_loop
    cases hc : cop attempt with
    | ok v => simp
    | error e =>
      dsimp only
      split
      · split
        · simp [List.mem_replicate]
        · split
          · simp [List.mem_replicate]
          · simp [List.mem_replicate, ih]
      · simp

/-- C9: on every failing execution of `upload()` that got far enough to open
a multipart session, the driver issues no abort-multipart-upload call and
re-raises the error with `self.upload_id` still set to the opened session id
(left open for manual resumption, never auto-aborted). -/
theorem upload_preserves_session_never_aborts
    (mr fs ps : Nat) (env : Env) (uid : String) (e : PyErr)
    (hcreate : (call_with_524_retry mr env.create_op).result = .ok (some uid))
    (_hfail : (upload mr fs ps env).result = .error e) :
    S3Op.abortMultipartUpload ∉ (upload mr fs ps env).ops ∧
    (upload mr fs ps env).upload_id = some uid := by
  have hrp := abort_not_in_run_parts mr env.part_op (part_tasks fs ps)
  unfold upload
  dsimp only
  rw [hcreate]
  dsimp only
  have hcl := fun parts2 => abort_not_in_complete_loop mr fs
    (env.complete_op (sort_parts parts2)) env.recon_head_op mr
    (max 60 (5 * ceil_div fs (1024 ^ 3))) 1
  cases hpr : (run_parts mr env.part_op (part_tasks fs ps)).result with
  | error e2 => exact ⟨by simp [List.mem_append, List.mem_replicate, hrp], rfl⟩
  | ok parts =>
    cases hl : (call_with_524_retry mr env.list_op).result with
    | error e2 => exact ⟨by simp [List.mem_append, List.mem_replicate, hrp], rfl⟩
    | ok w =>
      cases w with
      | none => exact ⟨by simp [List.mem_append, List.mem_replicate, hrp], rfl⟩
      | some seen =>
        dsimp only
        split
        · exact ⟨by simp [List.mem_append, List.mem_replicate, hrp], rfl⟩
        · cases hcm : (complete_with_timeout_retry mr fs
              (env.complete_op (sort_parts parts)) env.recon_head_op
              (max 60 (5 * ceil_div fs (1024 ^ 3)))).result with
          | error e2 =>
            refine ⟨?_, rfl⟩
            have := hcl parts
            norm_num at this
            simp [List.mem_append, List.mem_replicate, hrp, complete_with_timeout_retry, this]
          | ok u =>
            cases hh : (call_with_524_retry mr env.final_head_op).result with
            | error e2 =>
              refine ⟨?_, rfl⟩
              have := hcl parts
              norm_num at this
              simp [List.mem_append, List.mem_replicate, hrp, complete_with_timeout_retry, this]
            | ok w2 =>
              cases w2 with
              | none =>
                refine ⟨?_, rfl⟩
                have := hcl parts
                norm_num at this
                simp [List.mem_append, List.mem_replicate, hrp, complete_with_timeout_retry, this]
              | some uploaded_size =>
                dsimp only
                split
                · refine ⟨?_, rfl⟩
                  have := hcl parts
                  norm_num at this
                  simp [List.mem_append, List.mem_replicate, hrp, complete_with_timeout_retry, this]
                · refine ⟨?_, rfl⟩
                  have := hcl parts
                  norm_num at this
                  simp [List.mem_append, List.mem_replicate, hrp, complete_with_timeout_retry, this]

/-- Witness for `upload_preserves_session_never_aborts`: in `env507` part 2
hits 507, the upload fails, no abort is issued, and the opened session id
remains recorded. -/
theorem upload_preserves_session_never_aborts_witness :
    S3Op.abortMultipartUpload ∉ (upload 1 10 5 env507).ops ∧
    (upload 1 10 5 env507).upload_id = some "uid-507" :=
  upload_preserves_session_never_aborts 1 10 5 env507 "uid-507"
    (.runtimeError "Server reported insufficient storage") rfl rfl

end UploadLargeFile
